import Mathlib

/-!
Verification of the express-server repository.

The repository consists of two single-file variants of a minimal HTTP
server built on the express framework:

* variant A (`src/app.js`): routes `GET /`, `GET /intro`, `GET /about`;
* variant B (`src/unnamed/part_001`): routes `GET /`, `GET /intro`,
  `GET /section`.

Both variants register their routes with `app.get(path, handler)`, where
every handler is `res.send(<string literal>)`, set `const PORT = 8000`,
and call `app.listen(PORT, () => console.log(...))`.

The express framework itself is a third-party dependency whose source is
not part of the repository; its dispatch behaviour (exact-match lookup of
the registered routes, default 404 for everything else) is modelled from
the specification's description of it.  The route tables, the port
constant and the startup message are translated directly from the two
source files.
-/

/-- An HTTP request, as far as this server can observe it: the method and
the path.  The handlers in both source files ignore every other part of
`req`. -/
structure Request where
  method : String
  path : String
deriving DecidableEq, Repr

/-- An HTTP response: a status code and a body. -/
structure Response where
  status : Nat
  body : String
deriving DecidableEq, Repr

/-- One registered route: `app.get(path, (req, res) => res.send(body))`
registers the triple `("GET", path, body)`. -/
structure Route where
  method : String
  path : String
  body : String
deriving DecidableEq, Repr

/-- Modelled from the spec: express's route lookup, whose source (the
`express` package) is not under `src/`.  Registered routes are consulted
in registration order; a route responds exactly when its method and its
path equal the request's method and path ("exact-match path present in
the static mapping"). -/
def findRoute (routes : List Route) (m p : String) : Option Route :=
  routes.find? (fun r => r.method == m && r.path == p)

/-- Modelled from the spec: express's dispatch, whose source is not under
`src/`.  A matched route answers 200 with the literal body passed to
`res.send`; "for any other method/path combination, returns the host
framework's default 404 response", whose body carries no literal of the
mapping (express renders a `Cannot <METHOD> <path>` page). -/
def handle (routes : List Route) (req : Request) : Response :=
  match findRoute routes req.method req.path with
  | some r => ⟨200, r.body⟩
  | none => ⟨404, "Cannot " ++ req.method ++ " " ++ req.path⟩

/-- The server's reaction to a sequence of requests.  The source files
hold no mutable state: every handler only calls `res.send` on a literal,
so each request is answered independently by `handle`. -/
def serve (routes : List Route) : List Request → List Response
  | [] => []
  | r :: rs => handle routes r :: serve routes rs

/-- Modelled from the spec: the server "has exactly two states, unbound
and listening, with a single one-way transition triggered by start". -/
inductive ServerState where
  | unbound
  | listening
deriving DecidableEq, Repr

namespace AppA

/-- The port constant of `src/app.js`: `const PORT = 8000;`. -/
def PORT : Nat := 8000

/-- `src/app.js` line 3 initialises `PORT` from the literal `8000` and
from nothing else; in particular no environment variable is consulted, so
the resolved port is the same under every environment. -/
def configuredPort (env : String → Option String) : Nat :=
  PORT

/-- The routes registered by `src/app.js`, in registration order. -/
def app : List Route :=
  [ ⟨"GET", "/", "Hello from Express!"⟩,
    ⟨"GET", "/intro", "Hello I am anuj!"⟩,
    ⟨"GET", "/about", "about me"⟩ ]

/-- The startup message printed by the `app.listen` callback of
`src/app.js`. -/
def listenMessage : String :=
  "Server is running on " ++ "http://localhost:" ++ toString PORT

/-- Modelled from the spec: `app.listen` (express/node, not under `src/`)
invokes its callback exactly once, when the listener becomes bound.  The
callback itself is from `src/app.js`: a single `console.log` of
`listenMessage`. -/
def startupOutput : ServerState → List String
  | .unbound => []
  | .listening => [listenMessage]

end AppA

namespace AppB

/-- The port constant of `src/unnamed/part_001`: `const PORT = 8000;`. -/
def PORT : Nat := 8000

/-- `src/unnamed/part_001` line 3 initialises `PORT` from the literal
`8000` and from nothing else; no environment variable is consulted. -/
def configuredPort (env : String → Option String) : Nat :=
  PORT

/-- The routes registered by `src/unnamed/part_001`, in registration
order. -/
def app : List Route :=
  [ ⟨"GET", "/", "Hello from Express!"⟩,
    ⟨"GET", "/intro", "Hello I am anuj!"⟩,
    ⟨"GET", "/section", "sexction"⟩ ]

/-- The startup message printed by the `app.listen` callback of
`src/unnamed/part_001`. -/
def listenMessage : String :=
  "Server is running on " ++ "http://localhost:" ++ toString PORT

/-- Modelled from the spec: `app.listen` invokes its callback exactly
once, when the listener becomes bound.  The callback is a single
`console.log` of `listenMessage`. -/
def startupOutput : ServerState → List String
  | .unbound => []
  | .listening => [listenMessage]

end AppB

/-- The paths of the static literal mapping of variant A. -/
def AppA.mappedPaths : List String := AppA.app.map Route.path

/-- The paths of the static literal mapping of variant B. -/
def AppB.mappedPaths : List String := AppB.app.map Route.path

theorem findRoute_eq_none (routes : List Route) (m p : String)
    (h : ∀ r ∈ routes, r.method ≠ m ∨ r.path ≠ p) :
    findRoute routes m p = none := by
  rw [findRoute, List.find?_eq_none]
  intro r hr
  rcases h r hr with h' | h' <;> simp [h']

theorem data_append (s t : String) : (s ++ t).data = s.data ++ t.data := by
  cases s; cases t; rfl

theorem cannot_ne (m p s : String) (h : s.data.head? ≠ some 'C') :
    ("Cannot " ++ m ++ " " ++ p) ≠ s := by
  intro he
  apply h
  rw [← he]
  simp [data_append]

theorem serve_eq_map (routes : List Route) (reqs : List Request) :
    serve routes reqs = reqs.map (handle routes) := by
  induction reqs with
  | nil => rfl
  | cons r rs ih => simp [serve, ih]

/-- C1: for every path in the static literal mapping of the active
variant (`/`, `/intro` and `/about` in variant A, or `/`, `/intro` and
`/section` in variant B), a GET request to that path is answered with
status 200 and a body equal, character for character, to the configured
literal, with no trailing transformation. -/
theorem mapped_paths_literal :
    handle AppA.app ⟨"GET", "/"⟩ = ⟨200, "Hello from Express!"⟩ ∧
    handle AppA.app ⟨"GET", "/intro"⟩ = ⟨200, "Hello I am anuj!"⟩ ∧
    handle AppA.app ⟨"GET", "/about"⟩ = ⟨200, "about me"⟩ ∧
    handle AppB.app ⟨"GET", "/"⟩ = ⟨200, "Hello from Express!"⟩ ∧
    handle AppB.app ⟨"GET", "/intro"⟩ = ⟨200, "Hello I am anuj!"⟩ ∧
    handle AppB.app ⟨"GET", "/section"⟩ = ⟨200, "sexction"⟩ := by
  decide

theorem handle_nonget (routes : List Route)
    (hall : ∀ r ∈ routes, r.method = "GET") (m p : String) (hm : m ≠ "GET") :
    handle routes ⟨m, p⟩ = ⟨404, "Cannot " ++ m ++ " " ++ p⟩ := by
  rw [handle, findRoute_eq_none]
  intro r hr
  left
  rw [hall r hr]
  exact Ne.symm hm

/-- C3: a GET request whose path is not an exact-match member of the
static literal mapping of the variant (which excludes case variants and
trailing-slash variants of the mapped paths) is answered with status 404,
hence not 200. -/
theorem unmapped_get_404 :
    (∀ p, p ∉ AppA.mappedPaths → (handle AppA.app ⟨"GET", p⟩).status = 404) ∧
    (∀ p, p ∉ AppB.mappedPaths → (handle AppB.app ⟨"GET", p⟩).status = 404) := by
  constructor
  · intro p hp
    simp [AppA.mappedPaths, AppA.app] at hp
    obtain ⟨h1, h2, h3⟩ := hp
    rw [handle, findRoute_eq_none]
    intro r hr
    fin_cases hr <;> simp [Ne.symm h1, Ne.symm h2, Ne.symm h3]
  · intro p hp
    simp [AppB.mappedPaths, AppB.app] at hp
    obtain ⟨h1, h2, h3⟩ := hp
    rw [handle, findRoute_eq_none]
    intro r hr
    fin_cases hr <;> simp [Ne.symm h1, Ne.symm h2, Ne.symm h3]

/-- Witness for C3 at a case variant and a trailing-slash variant of
mapped paths. -/
theorem unmapped_get_404_witness :
    ("/About" ∉ AppA.mappedPaths ∧ (handle AppA.app ⟨"GET", "/About"⟩).status = 404) ∧
    ("/intro/" ∉ AppB.mappedPaths ∧ (handle AppB.app ⟨"GET", "/intro/"⟩).status = 404) :=
  ⟨⟨by decide, unmapped_get_404.1 "/About" (by decide)⟩,
   ⟨by decide, unmapped_get_404.2 "/intro/" (by decide)⟩⟩

/-- C4: any HTTP method other than GET applied to a mapped path is
answered with status 404 and with a body different from the literal that
path carries under GET; in particular `POST /` returns 404 in both
variants. -/
theorem nonget_not_literal (m : String) (hm : m ≠ "GET") :
    (∀ r ∈ AppA.app, (handle AppA.app ⟨m, r.path⟩).status = 404 ∧
      (handle AppA.app ⟨m, r.path⟩).body ≠ r.body) ∧
    (∀ r ∈ AppB.app, (handle AppB.app ⟨m, r.path⟩).status = 404 ∧
      (handle AppB.app ⟨m, r.path⟩).body ≠ r.body) ∧
    (handle AppA.app ⟨"POST", "/"⟩).status = 404 ∧
    (handle AppB.app ⟨"POST", "/"⟩).status = 404 := by
  refine ⟨?_, ?_, by decide, by decide⟩
  · intro r hr
    rw [handle_nonget AppA.app (by intro s hs; fin_cases hs <;> rfl) m r.path hm]
    exact ⟨rfl, cannot_ne m r.path r.body (by fin_cases hr <;> decide)⟩
  · intro r hr
    rw [handle_nonget AppB.app (by intro s hs; fin_cases hs <;> rfl) m r.path hm]
    exact ⟨rfl, cannot_ne m r.path r.body (by fin_cases hr <;> decide)⟩

/-- Witness for C4 at the concrete method POST on the mapped path `/`. -/
theorem nonget_not_literal_witness :
    ("POST" : String) ≠ "GET" ∧
    (handle AppA.app ⟨"POST", "/"⟩).body ≠ "Hello from Express!" :=
  ⟨by decide,
   ((nonget_not_literal "POST" (by decide)).1
     ⟨"GET", "/", "Hello from Express!"⟩ (by decide)).2⟩

/-- C5: `GET /about` is answered 200 with body `about me` by variant A
(`src/app.js`) and 404 by variant B (`src/unnamed/part_001`), which
registers no `/about` route. -/
theorem about_route_by_variant :
    handle AppA.app ⟨"GET", "/about"⟩ = ⟨200, "about me"⟩ ∧
    (handle AppB.app ⟨"GET", "/about"⟩).status = 404 := by
  decide

/-- C6: under variant B, `GET /section` is answered 200 with body exactly
`sexction`. -/
theorem variantB_section_literal :
    handle AppB.app ⟨"GET", "/section"⟩ = ⟨200, "sexction"⟩ := by
  decide

/-- C7: the listen port is the fixed constant 8000 in both variants, and
since neither source consults the environment the resolved port is 8000
under every environment. -/
theorem port_fixed_8000 :
    AppA.PORT = 8000 ∧ AppB.PORT = 8000 ∧
    (∀ env, AppA.configuredPort env = 8000) ∧
    (∀ env, AppB.configuredPort env = 8000) :=
  ⟨rfl, rfl, fun _ => rfl, fun _ => rfl⟩

/-- C8: in both variants the unbound server has printed nothing, and once
the listener is bound the server has printed exactly one startup message,
which contains the resolved URL `http://localhost:8000`. -/
theorem startup_message_once :
    AppA.startupOutput .unbound = [] ∧
    AppA.startupOutput .listening =
      ["Server is running on " ++ "http://localhost:8000"] ∧
    (AppA.startupOutput .listening).length = 1 ∧
    AppB.startupOutput .unbound = [] ∧
    AppB.startupOutput .listening =
      ["Server is running on " ++ "http://localhost:8000"] ∧
    (AppB.startupOutput .listening).length = 1 := by
  decide

/-- C9: request handling is deterministic and idempotent: in any sequence
of requests served against a fixed route table, two positions holding the
identical (method, path) request receive the identical response, however
far apart they are. -/
theorem serve_deterministic (routes : List Route) (reqs : List Request)
    (i j : Nat) (h : reqs[i]? = reqs[j]?) :
    (serve routes reqs)[i]? = (serve routes reqs)[j]? := by
  simp [serve_eq_map, List.getElem?_map, h]

/-- Witness for C9: the first and the third request of a concrete
sequence against variant A coincide, and so do their responses. -/
theorem serve_deterministic_witness :
    ([⟨"GET", "/"⟩, ⟨"GET", "/intro"⟩, ⟨"GET", "/"⟩] : List Request)[0]? =
      ([⟨"GET", "/"⟩, ⟨"GET", "/intro"⟩, ⟨"GET", "/"⟩] : List Request)[2]? ∧
    (serve AppA.app [⟨"GET", "/"⟩, ⟨"GET", "/intro"⟩, ⟨"GET", "/"⟩])[0]? =
      (serve AppA.app [⟨"GET", "/"⟩, ⟨"GET", "/intro"⟩, ⟨"GET", "/"⟩])[2]? :=
  ⟨rfl, serve_deterministic AppA.app
    [⟨"GET", "/"⟩, ⟨"GET", "/intro"⟩, ⟨"GET", "/"⟩] 0 2 rfl⟩

theorem handle_agree (m p : String) (h1 : p ≠ "/about") (h2 : p ≠ "/section") :
    handle AppA.app ⟨m, p⟩ = handle AppB.app ⟨m, p⟩ := by
  by_cases hm : m = "GET"
  · subst hm
    by_cases ha : p = "/"
    · subst ha; rfl
    · by_cases hb : p = "/intro"
      · subst hb; rfl
      · rw [handle, handle, findRoute_eq_none, findRoute_eq_none]
        · intro r hr; fin_cases hr <;> simp [Ne.symm ha, Ne.symm hb, Ne.symm h2]
        · intro r hr; fin_cases hr <;> simp [Ne.symm ha, Ne.symm hb, Ne.symm h1]
  · rw [handle, handle, findRoute_eq_none, findRoute_eq_none]
    · intro r hr; fin_cases hr <;> simp [Ne.symm hm]
    · intro r hr; fin_cases hr <;> simp [Ne.symm hm]

/-- C10: the two variants are observationally equivalent on their shared
surface: every request whose path is neither `/about` nor `/section`
(so in particular `GET /` and `GET /intro`) receives the identical
response from both, the port constant and the startup message coincide,
and the variants differ exactly at the third route. -/
theorem variants_equivalent :
    (∀ m p, p ≠ "/about" → p ≠ "/section" →
      handle AppA.app ⟨m, p⟩ = handle AppB.app ⟨m, p⟩) ∧
    AppA.PORT = AppB.PORT ∧
    AppA.listenMessage = AppB.listenMessage ∧
    handle AppA.app ⟨"GET", "/about"⟩ ≠ handle AppB.app ⟨"GET", "/about"⟩ ∧
    handle AppA.app ⟨"GET", "/section"⟩ ≠ handle AppB.app ⟨"GET", "/section"⟩ :=
  ⟨handle_agree, rfl, rfl, by decide, by decide⟩

/-- Witness for C10 on the shared routes `GET /` and `GET /intro`. -/
theorem variants_equivalent_witness :
    handle AppA.app ⟨"GET", "/"⟩ = handle AppB.app ⟨"GET", "/"⟩ ∧
    handle AppA.app ⟨"GET", "/intro"⟩ = handle AppB.app ⟨"GET", "/intro"⟩ :=
  ⟨variants_equivalent.1 "GET" "/" (by decide) (by decide),
   variants_equivalent.1 "GET" "/intro" (by decide) (by decide)⟩
